import Mathlib

/-!
Verification development for the conversation-session layer of the Mantella
game-integration bridge (src/src/game_manager.py, class GameStateManager).

The manager itself is translated directly from the source.  Collaborator
modules that the repository does not ship under src/ (the conversation
session container, the communication constants, the id-normalization
utility) are modelled from the specification; every such definition carries
a doc comment starting with "Modelled from the spec:".
-/

namespace Mantella

deriving instance DecidableEq for Except

/-- Reply-type value of an error reply: the literal string built by
GameStateManager.error_message (src/src/game_manager.py line 228). -/
def REPLYTYPE_ERROR : String := "error"

/-- Modelled from the spec: comm_consts.KEY_REPLYTTYPE_STARTCONVERSATIONCOMPLETED,
the reply-type value of a completed start (the communication_constants module is
not under src/; spec section 6 writes it "start_completed"). -/
def KEY_REPLYTTYPE_STARTCONVERSATIONCOMPLETED : String := "start_completed"

/-- Modelled from the spec: comm_consts.KEY_REPLYTYPE_NPCTALK, the reply-type
value acknowledging player input (spec section 6: "npc_talk"). -/
def KEY_REPLYTYPE_NPCTALK : String := "npc_talk"

/-- Modelled from the spec: comm_consts.KEY_REPLYTYPE_ENDCONVERSATION, the
reply-type value of the end reply (spec section 6: "end_conversation"). -/
def KEY_REPLYTYPE_ENDCONVERSATION : String := "end_conversation"

/-- Modelled from the spec: comm_consts.ACTION_RELOADCONVERSATION, the extra
action tag requesting a transcript reload (spec section 4.2). -/
def ACTION_RELOADCONVERSATION : String := "reload_conversation"

/-- Modelled from the spec: comm_consts.KEY_ACTOR_PC_VOICEMODEL, the
custom-values key holding a per-request player voice-model override
(spec section 4.1 step 4). -/
def KEY_ACTOR_PC_VOICEMODEL : String := "mantella_pc_voicemodel"

/-- src/games/equipment.py is not under src/; the manager only ever builds an
EquipmentItem from an item name (GameStateManager.__convert_to_equipment_item_dictionary). -/
structure EquipmentItem where
  itemname : String
deriving Repr, DecidableEq

/-- The equipment value the manager builds: one item per slot name. -/
structure Equipment where
  items : List (String × EquipmentItem)
deriving Repr, DecidableEq

/-- The CharacterRecord, with the fields in the order of the Character
constructor call in GameStateManager.load_character (lines 204-221). -/
structure Character where
  base_id : String
  ref_id : String
  name : String
  gender : Int
  race : String
  is_player_character : Bool
  bio : String
  is_in_combat : Bool
  is_enemy : Bool
  relationship_rank : Int
  is_generic_npc : Bool
  ingame_voice_model : String
  tts_voice_model : String
  csv_in_game_voice_model : String
  advanced_voice_model : String
  voice_accent : String
  equipment : Equipment
  custom_values : List (String × String)
deriving Repr, DecidableEq

/-- The record returned by the external enrichment lookup
(src/games/external_character_info.py, fields as read in load_character
lines 189-197). -/
structure external_character_info where
  name : String
  bio : String
  tts_voice_model : String
  csv_in_game_voice_model : String
  advanced_voice_model : String
  voice_accent : String
  is_generic_npc : Bool
  ingame_voice_model : String
deriving Repr, DecidableEq

/-- Modelled from the spec: the sentence artifact of src/llm/sentence.py
(not under src/): speaker reference, text, audio asset, duration, action
tags, and an error message that is empty when generation succeeded
(continue_conversation tests its truthiness at line 69). -/
structure sentence where
  speaker_name : String
  text : String
  voice_file : String
  voice_line_duration : Int
  actions : List String
  error_message : String
deriving Repr, DecidableEq

/-- The npc-talk payload of a reply, as built by
GameStateManager.sentence_to_json (lines 103-110). -/
structure SentenceJson where
  speaker : String
  line_to_speak : String
  voice_file : String
  duration : Int
  actions : List String
deriving Repr, DecidableEq

/-- An outbound reply: the reply type plus the optional error message
(GameStateManager.error_message) and the optional npc-talk payload
(continue_conversation line 71). -/
structure Reply where
  reply_type : String
  mantella_message : Option String := none
  npc_talk : Option SentenceJson := none
deriving Repr, DecidableEq

/-- Modelled from the spec: the ConversationSession held in
src/conversation/conversation.py (not under src/).  Per spec section 3 it
owns the sanitized world id, the character mapping keyed by reference id,
the latest scene-context snapshot, and the transcript; started records that
conversation.start_conversation ran. -/
structure conversation where
  world_id : String
  characters : List Character := []
  location : Option String := none
  time : Int := 0
  ingame_events : List String := []
  weather : String := ""
  custom_context_values : List (String × String) := []
  transcript : List String := []
  started : Bool := false
deriving Repr, DecidableEq

/-- Modelled from the spec: conversation.contains_character, the
containsCharacter(refId) query of spec section 4.2. -/
def conversation.contains_character (t : conversation) (ref_id : String) : Bool :=
  t.characters.any fun c => c.ref_id == ref_id

/-- Modelled from the spec: conversation.get_character, the
getCharacter(refId) query of spec section 4.2. -/
def conversation.get_character (t : conversation) (ref_id : String) : Option Character :=
  t.characters.find? fun c => c.ref_id == ref_id

/-- One insertion step of the character mapping: replace the stored record
when the reference id is already present, append otherwise.  Modelled from
the spec (section 4.2 updateContext: insert if new, replace if existing). -/
def addChar (cs : List Character) (c : Character) : List Character :=
  if cs.any (fun x => x.ref_id == c.ref_id) then
    cs.map fun x => if x.ref_id == c.ref_id then c else x
  else
    cs ++ [c]

/-- Modelled from the spec: conversation.add_or_update_character merges the
resolved records into the session's character mapping (spec section 4.2). -/
def conversation.add_or_update_character (t : conversation) (new_chars : List Character) : conversation :=
  { t with characters := new_chars.foldl addChar t.characters }

/-- Modelled from the spec: conversation.update_context replaces the scene
context snapshot wholesale (spec section 4.2: latest snapshot wins). -/
def conversation.update_context_fields (t : conversation) (location : Option String)
    (time : Int) (ingame_events : List String) (weather : String)
    (custom_context_values : List (String × String)) : conversation :=
  { t with location := location, time := time, ingame_events := ingame_events,
           weather := weather, custom_context_values := custom_context_values }

/-- Modelled from the spec: conversation.process_player_input records the
text into the session transcript and produces no reply line (spec 4.2). -/
def conversation.process_player_input (t : conversation) (text : String) : conversation :=
  { t with transcript := t.transcript ++ [text] }

/-- Modelled from the spec: conversation.start_conversation begins the
session's turn loop; it does not touch the character mapping. -/
def conversation.start_conv (t : conversation) : conversation :=
  { t with started := true }

/-- A Python exception load_character does not catch: the IndexError raised
by actor_voice_model.split at line 158 when the voice-type string has no
angle-bracketed segment. -/
inductive PyErr where
  | indexError
deriving Repr, DecidableEq

/-- Observable collaborator calls, recorded so that resource-release and
lookup-invocation claims can be stated: conversation.end firing (resource
release), a new conversation object being constructed, and the external
enrichment lookup being consulted for a reference id. -/
inductive Event where
  | endHook
  | sessionCreated
  | lookup (ref_id : String)
deriving Repr, DecidableEq

/-- The external collaborators and the configuration the manager consumes.
hexFormat is modelled from the spec: utils.convert_to_skyrim_hex_format
(src/utils.py is not under src/) normalizes an id into canonical hex form
and fails with the character-identity condition that load_character catches
(spec section 4.1 step 1).  lookup is gameable.load_external_character_info,
whose failure is the CharacterDoesNotExist exception declared at the top of
src/src/game_manager.py.  genStep, prepare, reload and weatherDesc stand
for the generation backend, the game adapter and the memory collaborator. -/
structure Env where
  hexFormat : String → Except Unit String
  lookup : String → String → String → Int → String → Except Unit external_character_info
  weatherDesc : String → String
  prepare : sentence → sentence
  genStep : conversation → String × Option sentence
  reload : conversation → conversation
  voice_player_input : Bool
  player_voice_model : String

/-- The raw actor payload fields GameStateManager.load_character reads from
the request JSON (lines 152-168): required keys as plain fields, the two
optional keys as Option. -/
structure ActorJson where
  base_id : String
  ref_id : String
  name : String
  gender : Int
  race : String
  voice_model : String
  is_in_combat : Bool
  is_enemy : Bool
  relationship_rank : Int
  is_player : Bool
  custom_values : Option (List (String × String)) := none
  equipment : Option (List (String × String)) := none
deriving Repr, DecidableEq

/-- Python str.split with a one-character separator, on the character
list: "a<b" gives ["a", "b"], "" gives [""], "a<" gives ["a", ""]. -/
def splitOnChar (c : Char) : List Char → List (List Char)
  | [] => [[]]
  | x :: xs =>
    let r := splitOnChar c xs
    if x = c then [] :: r
    else
      match r with
      | [] => [[x]]
      | y :: ys => (x :: y) :: ys

/-- The in-game voice model token extraction of line 158:
actor_voice_model.split on the angle bracket, index 1, then split on a
space, index 0; Python raises IndexError when no bracket is present. -/
def extract_ingame_voice_model (s : String) : Except PyErr String :=
  match splitOnChar '<' s.data with
  | _ :: second :: _ => .ok (String.mk ((splitOnChar ' ' second).headD []))
  | _ => .error .indexError

/-- The manager state: the optional active session held in the private
field self.__talk. -/
structure GameStateManager where
  talk : Option conversation := none
deriving Repr, DecidableEq

/-- GameStateManager.error_message (lines 226-230). -/
def error_message (message : String) : Reply :=
  { reply_type := REPLYTYPE_ERROR, mantella_message := some message }

/-- GameStateManager.sentence_to_json (lines 103-110); .strip becomes trim. -/
def sentence_to_json (s : sentence) : SentenceJson :=
  { speaker := s.speaker_name, line_to_speak := s.text.trim,
    voice_file := s.voice_file, duration := s.voice_line_duration,
    actions := s.actions }

/-- GameStateManager.__get_player_voice_model (lines 232-235). -/
def get_player_voice_model (env : Env) (game_value : Option String) : String :=
  match game_value with
  | none => env.player_voice_model
  | some v => v

/-- Assoc lookup over the custom-values mapping, modelling the dict
membership test and subscript of lines 199-200. -/
def lookupKV (kvs : List (String × String)) (k : String) : Option String :=
  (kvs.find? fun p => p.1 == k).map Prod.snd

/-- GameStateManager.__convert_to_equipment_item_dictionary (lines 237-242). -/
def convert_to_equipment_item_dictionary (input_dict : List (String × String)) : Equipment :=
  Equipment.mk (input_dict.map fun p => (p.1, EquipmentItem.mk p.2))

/-- The world-id sanitization of lines 27 and 49: WORLD_ID_CLEANSE_REGEX
matches every run of characters outside A-Za-z0-9 and substitution by the
empty string deletes it, leaving exactly the ASCII alphanumerics. -/
def cleanse_world_id (s : String) : String :=
  String.mk (s.data.filter fun c => c.isAlpha || c.isDigit)

/-- The world id start_conversation stores (lines 46-49): the sanitized
scene id when the request carries the key, the literal "default" otherwise. -/
def start_world_id (world_id_json : Option String) : String :=
  match world_id_json with
  | some w => cleanse_world_id w
  | none => "default"

/-- GameStateManager.load_character (lines 149-224): parse the raw actor,
copy the cached enrichment when the session already holds the reference id,
otherwise consult the external lookup (non-player) or resolve the player
voice model; the caught character-identity condition yields no record.
Returns the collaborator events alongside the outcome. -/
def load_character (env : Env) (talk : Option conversation) (j : ActorJson) :
    List Event × Except PyErr (Option Character) :=
  match env.hexFormat j.base_id with
  | .error _ => ([], .ok none)
  | .ok base_id =>
    match env.hexFormat j.ref_id with
    | .error _ => ([], .ok none)
    | .ok ref_id =>
      match extract_ingame_voice_model j.voice_model with
      | .error e => ([], .error e)
      | .ok ingame0 =>
        let character_name := j.name
        let custom_values := j.custom_values.getD []
        let equipment :=
          match j.equipment with
          | some eq => convert_to_equipment_item_dictionary eq
          | none => Equipment.mk []
        let mkChar := fun (nm ivm bio tts csv adv acc : String) (gen : Bool) =>
          Character.mk base_id ref_id nm j.gender j.race j.is_player bio
            j.is_in_combat j.is_enemy j.relationship_rank gen ivm tts csv adv
            acc equipment custom_values
        match talk with
        | some t =>
          if t.contains_character ref_id then
            match t.get_character ref_id with
            | some c =>
              ([], .ok (some (mkChar character_name ingame0 c.bio
                c.tts_voice_model c.csv_in_game_voice_model
                c.advanced_voice_model c.voice_accent c.is_generic_npc)))
            | none =>
              ([], .ok (some (mkChar character_name ingame0 "" "" "" "" "" false)))
          else if !j.is_player then
            match env.lookup base_id character_name j.race j.gender j.voice_model with
            | .error _ => ([Event.lookup ref_id], .ok none)
            | .ok ext =>
              let is_generic_npc := ext.is_generic_npc
              let nm := if is_generic_npc then ext.name else character_name
              let ivm := if is_generic_npc then ext.ingame_voice_model else ingame0
              ([Event.lookup ref_id], .ok (some (mkChar nm ivm ext.bio
                ext.tts_voice_model ext.csv_in_game_voice_model
                ext.advanced_voice_model ext.voice_accent is_generic_npc)))
          else if j.is_player && env.voice_player_input then
            let tts :=
              match lookupKV custom_values KEY_ACTOR_PC_VOICEMODEL with
              | some v => get_player_voice_model env (some v)
              | none => get_player_voice_model env none
            ([], .ok (some (mkChar character_name ingame0 "" tts "" "" "" false)))
          else
            ([], .ok (some (mkChar character_name ingame0 "" "" "" "" "" false)))
        | none =>
          ([], .ok (some (mkChar character_name ingame0 "" "" "" "" "" false)))

/-- The actor-resolution loop of GameStateManager.__update_context
(lines 116-121): collect the events and the successfully resolved records,
skipping actors that yielded no record; an uncaught exception aborts. -/
def resolveActors (env : Env) (talk : Option conversation) :
    List ActorJson → List Event × Except PyErr (List Character)
  | [] => ([], .ok [])
  | j :: rest =>
    match load_character env talk j with
    | (ev, .error e) => (ev, .error e)
    | (ev, .ok none) =>
      match resolveActors env talk rest with
      | (ev2, r) => (ev ++ ev2, r)
    | (ev, .ok (some c)) =>
      match resolveActors env talk rest with
      | (ev2, .error e) => (ev ++ ev2, .error e)
      | (ev2, .ok cs) => (ev ++ ev2, .ok (c :: cs))

/-- The parts of the request JSON GameStateManager.__update_context reads
(lines 114-132): the actor list and the context object, with the optional
keys as Option. -/
structure UpdateInput where
  actors : List ActorJson := []
  location : Option String := none
  time : Int := 0
  ingame_events : List String := []
  weather : Option String := none
  custom_context_values : Option (List (String × String)) := none
deriving Repr, DecidableEq

/-- GameStateManager.__update_context on an active session (lines 114-132):
resolve each actor, add-or-update the character mapping, then replace the
context snapshot (weather through the game adapter when present). -/
def update_context_on (env : Env) (t : conversation) (j : UpdateInput) :
    List Event × Except PyErr conversation :=
  match resolveActors env (some t) j.actors with
  | (ev, .error e) => (ev, .error e)
  | (ev, .ok actors_in_json) =>
    let t1 := t.add_or_update_character actors_in_json
    let weather :=
      match j.weather with
      | some w => env.weatherDesc w
      | none => ""
    let ccv := j.custom_context_values.getD []
    (ev, .ok (t1.update_context_fields j.location j.time j.ingame_events weather ccv))

/-- GameStateManager.start_conversation (lines 42-55): force-end any active
session, sanitize or default the world id, create the session, apply the
initial context update, start the conversation, and reply start-completed.
When the initial update raises an uncaught exception the freshly assigned
session remains (the assignment at line 51 precedes the update). -/
def GameStateManager.start_conversation (env : Env) (st : GameStateManager)
    (world_id_json : Option String) (j : UpdateInput) :
    List Event × GameStateManager × Except PyErr Reply :=
  let ev0 : List Event :=
    match st.talk with
    | some _ => [Event.endHook]
    | none => []
  let world_id := start_world_id world_id_json
  let t0 : conversation := { world_id := world_id }
  match update_context_on env t0 j with
  | (ev, .error e) =>
    (ev0 ++ [Event.sessionCreated] ++ ev, { talk := some t0 }, .error e)
  | (ev, .ok t1) =>
    (ev0 ++ [Event.sessionCreated] ++ ev, { talk := some t1.start_conv },
     .ok { reply_type := KEY_REPLYTTYPE_STARTCONVERSATIONCOMPLETED })

/-- GameStateManager.continue_conversation (lines 57-75).  The generation
step is the external collaborator env.genStep; a sentence with a non-empty
error message makes the manager call the session's end hook and return an
error reply, without clearing self.__talk (lines 72-74). -/
def GameStateManager.continue_conversation (env : Env) (st : GameStateManager)
    (extra_actions : Option (List String)) :
    List Event × GameStateManager × Except PyErr Reply :=
  match st.talk with
  | none => ([], st, .ok (error_message "No running conversation at this point"))
  | some t =>
    let t1 :=
      match extra_actions with
      | some ex => if ex.contains ACTION_RELOADCONVERSATION then env.reload t else t
      | none => t
    match env.genStep t1 with
    | (replyType, none) => ([], { talk := some t1 }, .ok { reply_type := replyType })
    | (replyType, some sentence_to_play) =>
      if sentence_to_play.error_message == "" then
        let prepared := env.prepare sentence_to_play
        ([], { talk := some t1 },
         .ok { reply_type := replyType, npc_talk := some (sentence_to_json prepared) })
      else
        ([Event.endHook], { talk := some t1 },
         .ok (error_message sentence_to_play.error_message))

/-- GameStateManager.player_input (lines 77-84). -/
def GameStateManager.player_input (env : Env) (st : GameStateManager)
    (player_text : String) (j : UpdateInput) :
    List Event × GameStateManager × Except PyErr Reply :=
  match st.talk with
  | none => ([], st, .ok (error_message "No running conversation at this point"))
  | some t =>
    match update_context_on env t j with
    | (ev, .error e) => (ev, st, .error e)
    | (ev, .ok t1) =>
      (ev, { talk := some (t1.process_player_input player_text) },
       .ok { reply_type := KEY_REPLYTYPE_NPCTALK })

/-- GameStateManager.end_conversation (lines 86-93): end the session when
one is active, clear the reference, always reply end_conversation. -/
def GameStateManager.end_conversation (st : GameStateManager) :
    List Event × GameStateManager × Except PyErr Reply :=
  let ev : List Event :=
    match st.talk with
    | some _ => [Event.endHook]
    | none => []
  (ev, { talk := none }, .ok { reply_type := KEY_REPLYTYPE_ENDCONVERSATION })

/-- A session-lifetime sequence of context updates: thread the conversation
through update_context_on, keeping the prior session state when a call
aborts (the mutation at lines 122-132 happens only after the resolution
loop finished), and collect the collaborator events. -/
def run_updates (env : Env) : conversation → List UpdateInput → List Event × conversation
  | t, [] => ([], t)
  | t, j :: rest =>
    match update_context_on env t j with
    | (ev, .ok t1) =>
      match run_updates env t1 rest with
      | (ev2, t2) => (ev ++ ev2, t2)
    | (ev, .error _) =>
      match run_updates env t rest with
      | (ev2, t2) => (ev ++ ev2, t2)

/-- The cached enrichment fields of a record: biography, the three cached
voice models, accent and the generic-NPC flag (spec section 3). -/
def enrichment (c : Character) : String × String × String × String × String × Bool :=
  (c.bio, c.tts_voice_model, c.csv_in_game_voice_model, c.advanced_voice_model,
   c.voice_accent, c.is_generic_npc)

/-! ### Concrete fixtures used by the evaluation witnesses -/

/-- A concrete enrichment-lookup result. -/
def ext0 : external_character_info :=
  { name := "Guard", bio := "A town guard.", tts_voice_model := "ttsA",
    csv_in_game_voice_model := "csvA", advanced_voice_model := "advA",
    voice_accent := "en", is_generic_npc := true, ingame_voice_model := "MaleGuard" }

/-- A concrete environment: id normalization fails exactly on "badid",
the lookup always answers ext0, and generation produces no line. -/
def env0 : Env :=
  { hexFormat := fun s => if s == "badid" then .error () else .ok s,
    lookup := fun _ _ _ _ _ => .ok ext0,
    weatherDesc := fun w => w,
    prepare := fun s => s,
    genStep := fun _ => (KEY_REPLYTYPE_NPCTALK, none),
    reload := fun t => t,
    voice_player_input := true,
    player_voice_model := "DefaultPlayerVoice" }

/-- A manager state with an active session. -/
def stA : GameStateManager := { talk := some { world_id := "w" } }

/-- A sentence carrying a generation-failure message. -/
def errSentence : sentence :=
  { speaker_name := "Bob", text := "x", voice_file := "f",
    voice_line_duration := 1, actions := [], error_message := "LLM backend failure" }

/-- env0 with a generation step that reports a failure. -/
def envErr : Env :=
  { env0 with genStep := fun _ => (KEY_REPLYTYPE_NPCTALK, some errSentence) }

/-- A session with no characters, used by witnesses. -/
def tW : conversation := { world_id := "w" }

/-- A concrete non-player raw actor whose ids normalize under env0. -/
def actorBobRaw : ActorJson :=
  { base_id := "b1", ref_id := "r1", name := "Bob", gender := 0, race := "Nord",
    voice_model := "VoiceType <MaleNord ok>", is_in_combat := false,
    is_enemy := false, relationship_rank := 0, is_player := false }

/-- A concrete raw actor whose base id fails normalization under env0. -/
def actorAnnBad : ActorJson :=
  { base_id := "badid", ref_id := "r9", name := "Ann", gender := 1,
    race := "Imperial", voice_model := "VoiceType <FemaleSly ok>",
    is_in_combat := false, is_enemy := false, relationship_rank := 0,
    is_player := false }

/-- The record env0 resolves actorBobRaw to: the generic lookup result ext0
overrides the raw name and voice token. -/
def guardRecord : Character :=
  { base_id := "b1", ref_id := "r1", name := "Guard", gender := 0, race := "Nord",
    is_player_character := false, bio := "A town guard.", is_in_combat := false,
    is_enemy := false, relationship_rank := 0, is_generic_npc := true,
    ingame_voice_model := "MaleGuard", tts_voice_model := "ttsA",
    csv_in_game_voice_model := "csvA", advanced_voice_model := "advA",
    voice_accent := "en", equipment := Equipment.mk [], custom_values := [] }

/-- A concrete player raw actor carrying a voice-model override. -/
def actorPlayer : ActorJson :=
  { base_id := "pb", ref_id := "pr", name := "Me", gender := 0, race := "Nord",
    voice_model := "Voice <PlayerVoice x>", is_in_combat := false,
    is_enemy := false, relationship_rank := 0, is_player := true,
    custom_values := some [(KEY_ACTOR_PC_VOICEMODEL, "MyVoice")] }

/-- A raw actor reusing reference id r1 with different raw enrichment-related
fields, used to exercise the enrichment-stability claim. -/
def actorBobAgain : ActorJson :=
  { base_id := "b1", ref_id := "r1", name := "Bobby", gender := 0, race := "Nord",
    voice_model := "VoiceType <OtherVoice y>", is_in_combat := true,
    is_enemy := true, relationship_rank := 2, is_player := false }

/-- A session already holding the resolved record for reference id r1. -/
def tCached : conversation := { world_id := "w", characters := [guardRecord] }

/-- A sequence of one further context update referencing r1. -/
def jsW : List UpdateInput := [{ actors := [actorBobAgain], time := 5 }]

/-! ### Helper lemmas about the session operations -/

/-- A successful context update does not change the stored world id. -/
theorem update_context_on_world_id (env : Env) (t : conversation) (j : UpdateInput)
    {ev : List Event} {t1 : conversation}
    (h : update_context_on env t j = (ev, .ok t1)) : t1.world_id = t.world_id := by
  unfold update_context_on at h
  cases hres : resolveActors env (some t) j.actors with
  | mk ev' r =>
    rw [hres] at h
    cases r with
    | error e => simp at h
    | ok cs =>
      simp only [Prod.mk.injEq, Except.ok.injEq] at h
      obtain ⟨-, h2⟩ := h
      subst h2
      simp [conversation.update_context_fields, conversation.add_or_update_character]

/-- A successful context update folds the resolved records into the prior
character mapping. -/
theorem update_context_on_characters (env : Env) (t : conversation) (j : UpdateInput)
    {ev : List Event} {t1 : conversation}
    (h : update_context_on env t j = (ev, .ok t1)) :
    ∃ cs, resolveActors env (some t) j.actors = (ev, .ok cs) ∧
      t1.characters = cs.foldl addChar t.characters := by
  unfold update_context_on at h
  cases hres : resolveActors env (some t) j.actors with
  | mk ev' r =>
    rw [hres] at h
    cases r with
    | error e => simp at h
    | ok cs =>
      simp only [Prod.mk.injEq, Except.ok.injEq] at h
      obtain ⟨h1, h2⟩ := h
      subst h1
      subst h2
      exact ⟨cs, rfl, by
        simp [conversation.update_context_fields, conversation.add_or_update_character]⟩

/-! ### Claim theorems -/

/-- Claim C4: continue_conversation and player_input called while no session
is active return the structured "No running conversation at this point"
error reply, leave the manager state unchanged, create no session, and
invoke no collaborator (the event trace is empty). -/
theorem no_session_protocol_error (env : Env) (st : GameStateManager)
    (ex : Option (List String)) (txt : String) (j : UpdateInput)
    (h : st.talk = none) :
    GameStateManager.continue_conversation env st ex =
      ([], st, .ok (error_message "No running conversation at this point")) ∧
    GameStateManager.player_input env st txt j =
      ([], st, .ok (error_message "No running conversation at this point")) := by
  unfold GameStateManager.continue_conversation GameStateManager.player_input
  rw [h]
  exact ⟨rfl, rfl⟩

/-- Witness for C4 at a concrete idle manager. -/
theorem no_session_protocol_error_witness :
    (GameStateManager.mk none).talk = none ∧
    (GameStateManager.continue_conversation env0 (GameStateManager.mk none) none =
      ([], GameStateManager.mk none,
        .ok (error_message "No running conversation at this point")) ∧
     GameStateManager.player_input env0 (GameStateManager.mk none) "hello" {} =
      ([], GameStateManager.mk none,
        .ok (error_message "No running conversation at this point"))) :=
  ⟨rfl, no_session_protocol_error env0 (GameStateManager.mk none) none "hello" {} rfl⟩

/-- Claim C9: end_conversation always succeeds with the end_conversation
reply, always leaves no session, is idempotent (a second call does not
change the state further), and on an idle manager is a no-op apart from the
reply (state unchanged, no end hook fired). -/
theorem end_conversation_idempotent (st : GameStateManager) :
    (GameStateManager.end_conversation st).2.2 =
      .ok { reply_type := KEY_REPLYTYPE_ENDCONVERSATION } ∧
    (GameStateManager.end_conversation st).2.1.talk = none ∧
    (GameStateManager.end_conversation (GameStateManager.end_conversation st).2.1).2.1 =
      (GameStateManager.end_conversation st).2.1 ∧
    GameStateManager.end_conversation { talk := none } =
      ([], { talk := none }, .ok { reply_type := KEY_REPLYTYPE_ENDCONVERSATION }) :=
  ⟨rfl, rfl, rfl, rfl⟩

/-- Witness for C9 at a concrete active manager. -/
theorem end_conversation_idempotent_witness :
    (GameStateManager.end_conversation stA).2.2 =
      .ok { reply_type := KEY_REPLYTYPE_ENDCONVERSATION } ∧
    (GameStateManager.end_conversation stA).2.1.talk = none ∧
    (GameStateManager.end_conversation (GameStateManager.end_conversation stA).2.1).2.1 =
      (GameStateManager.end_conversation stA).2.1 ∧
    GameStateManager.end_conversation { talk := none } =
      ([], { talk := none }, .ok { reply_type := KEY_REPLYTYPE_ENDCONVERSATION }) :=
  end_conversation_idempotent stA

/-- Claim C6: the world id stored by start_conversation is the supplied
scene id with every character outside A-Za-z0-9 removed; in particular
"My World! #1" sanitizes to "MyWorld1". -/
theorem start_world_id_sanitized (env : Env) (st : GameStateManager) (w : String)
    (j : UpdateInput) (t1 : conversation)
    (h : (GameStateManager.start_conversation env st (some w) j).2.1.talk = some t1) :
    t1.world_id = String.mk (w.data.filter fun c => c.isAlpha || c.isDigit) ∧
    cleanse_world_id "My World! #1" = "MyWorld1" := by
  refine ⟨?_, by decide⟩
  simp only [GameStateManager.start_conversation, start_world_id] at h
  cases hu : update_context_on env { world_id := cleanse_world_id w } j with
  | mk ev r =>
    rw [hu] at h
    cases r with
    | error e =>
      simp only [Option.some.injEq] at h
      subst h
      rfl
    | ok t1' =>
      simp only [Option.some.injEq] at h
      subst h
      have hw := update_context_on_world_id env { world_id := cleanse_world_id w } j hu
      simpa [conversation.start_conv, cleanse_world_id] using hw

/-- Witness for C6 on the concrete scene id of the claim. -/
theorem start_world_id_sanitized_witness :
    (GameStateManager.start_conversation env0 { talk := none }
        (some "My World! #1") {}).2.1.talk =
      some { world_id := "MyWorld1", started := true } ∧
    (({ world_id := "MyWorld1", started := true } : conversation).world_id =
      String.mk ("My World! #1".data.filter fun c => c.isAlpha || c.isDigit) ∧
     cleanse_world_id "My World! #1" = "MyWorld1") :=
  ⟨by decide,
   start_world_id_sanitized env0 { talk := none } "My World! #1" {}
     { world_id := "MyWorld1", started := true } (by decide)⟩

/-- Claim C10: when the request carries no world-id key, the session is
created with the world id "default" and no sanitization is applied. -/
theorem start_world_id_default (env : Env) (st : GameStateManager)
    (j : UpdateInput) (t1 : conversation)
    (h : (GameStateManager.start_conversation env st none j).2.1.talk = some t1) :
    t1.world_id = "default" := by
  simp only [GameStateManager.start_conversation, start_world_id] at h
  cases hu : update_context_on env { world_id := "default" } j with
  | mk ev r =>
    rw [hu] at h
    cases r with
    | error e =>
      simp only [Option.some.injEq] at h
      subst h
      rfl
    | ok t1' =>
      simp only [Option.some.injEq] at h
      subst h
      have hw := update_context_on_world_id env { world_id := "default" } j hu
      simpa [conversation.start_conv] using hw

/-- Witness for C10 at a concrete request without a world id. -/
theorem start_world_id_default_witness :
    (GameStateManager.start_conversation env0 { talk := none } none {}).2.1.talk =
      some { world_id := "default", started := true } ∧
    ({ world_id := "default", started := true } : conversation).world_id = "default" :=
  ⟨by decide,
   start_world_id_default env0 { talk := none } {}
     { world_id := "default", started := true } (by decide)⟩

/-- Counterexample to claim C2 as stated: after a generation failure the
manager keeps self.__talk set (lines 72-74 call end() but never clear the
reference, unlike lines 44-45 and 88-89), so the subsequent
continue_conversation does not return the "no active session" protocol
error. -/
theorem continue_generation_error_counterexample :
    (GameStateManager.continue_conversation envErr stA none).2.1.talk ≠ none ∧
    (GameStateManager.continue_conversation envErr
        (GameStateManager.continue_conversation envErr stA none).2.1 none).2.2 =
      .ok (error_message "LLM backend failure") ∧
    error_message "LLM backend failure" ≠
      error_message "No running conversation at this point" := by
  exact ⟨by decide, rfl, by decide⟩

/-- Claim C2 amended: a generation failure during continue_conversation
yields the error reply carrying the sentence's message and fires the
session's end (resource-release) hook, but the manager retains the session
reference, so a subsequent continue_conversation does not behave as if no
session exists. -/
theorem continue_generation_error (env : Env) (st : GameStateManager)
    (t : conversation) (rt : String) (s : sentence)
    (h : st.talk = some t)
    (hg : env.genStep t = (rt, some s))
    (he : (s.error_message == "") = false) :
    GameStateManager.continue_conversation env st none =
      ([Event.endHook], { talk := some t }, .ok (error_message s.error_message)) ∧
    ({ talk := some t } : GameStateManager).talk ≠ none := by
  refine ⟨?_, by simp⟩
  simp only [GameStateManager.continue_conversation]
  rw [h]
  simp only [hg, he]
  rfl

/-- Witness for the amended C2 at the concrete failing environment. -/
theorem continue_generation_error_witness :
    (stA.talk = some { world_id := "w" } ∧
     envErr.genStep { world_id := "w" } = (KEY_REPLYTYPE_NPCTALK, some errSentence) ∧
     (errSentence.error_message == "") = false) ∧
    (GameStateManager.continue_conversation envErr stA none =
      ([Event.endHook], { talk := some { world_id := "w" } },
        .ok (error_message errSentence.error_message)) ∧
     ({ talk := some { world_id := "w" } } : GameStateManager).talk ≠ none) :=
  ⟨⟨rfl, rfl, by decide⟩,
   continue_generation_error envErr stA { world_id := "w" } KEY_REPLYTYPE_NPCTALK
     errSentence rfl rfl (by decide)⟩

/-- A context update that aborts does so exactly because the actor
resolution loop aborted, with the same events and exception. -/
theorem update_context_on_error (env : Env) (t : conversation) (j : UpdateInput)
    {ev : List Event} {e : PyErr}
    (h : update_context_on env t j = (ev, .error e)) :
    resolveActors env (some t) j.actors = (ev, .error e) := by
  unfold update_context_on at h
  cases hres : resolveActors env (some t) j.actors with
  | mk ev' r =>
    rw [hres] at h
    cases r with
    | error e' =>
      simp only [Prod.mk.injEq, Except.error.injEq] at h
      obtain ⟨h1, -⟩ := h
      subst h1
      cases e'
      cases e
      rfl
    | ok cs => simp at h

/-- Claim C3: start_conversation on a manager that already holds an active
session fires the prior session's end hook strictly before the new session
object is created, and the new session starts with an empty character map:
the resulting session's map is exactly this call's actors, resolved against
the fresh empty session, folded into the empty map — or empty outright when
the initial update aborts — so nothing of the prior map is carried over. -/
theorem start_ends_prior_session (env : Env) (st : GameStateManager)
    (t : conversation) (wj : Option String) (j : UpdateInput)
    (h : st.talk = some t) :
    (∃ ev', (GameStateManager.start_conversation env st wj j).1 =
      Event.endHook :: Event.sessionCreated :: ev') ∧
    (∃ t1 : conversation,
      (GameStateManager.start_conversation env st wj j).2.1.talk = some t1 ∧
      ((∃ (ev : List Event) (cs : List Character),
          resolveActors env (some { world_id := start_world_id wj }) j.actors =
            (ev, .ok cs) ∧
          t1.characters = cs.foldl addChar []) ∨
       (∃ (ev : List Event) (e : PyErr),
          resolveActors env (some { world_id := start_world_id wj }) j.actors =
            (ev, .error e) ∧
          t1.characters = []))) := by
  simp only [GameStateManager.start_conversation]
  rw [h]
  cases hu : update_context_on env { world_id := start_world_id wj } j with
  | mk ev r =>
    cases r with
    | error e =>
      refine ⟨⟨ev, by simp⟩, ⟨{ world_id := start_world_id wj }, by simp, Or.inr ?_⟩⟩
      exact ⟨ev, e, update_context_on_error env { world_id := start_world_id wj } j hu, rfl⟩
    | ok t1' =>
      obtain ⟨cs, hres, hchars⟩ :=
        update_context_on_characters env { world_id := start_world_id wj } j hu
      refine ⟨⟨ev, by simp⟩, ⟨t1'.start_conv, by simp, Or.inl ⟨ev, cs, hres, ?_⟩⟩⟩
      simpa [conversation.start_conv] using hchars

/-- Witness for C3 at a concrete active manager. -/
theorem start_ends_prior_session_witness :
    stA.talk = some { world_id := "w" } ∧
    ((∃ ev', (GameStateManager.start_conversation env0 stA (some "New") {}).1 =
       Event.endHook :: Event.sessionCreated :: ev') ∧
     (∃ t1 : conversation,
       (GameStateManager.start_conversation env0 stA (some "New") {}).2.1.talk = some t1 ∧
       ((∃ (ev : List Event) (cs : List Character),
           resolveActors env0 (some { world_id := start_world_id (some "New") })
             ([] : List ActorJson) = (ev, .ok cs) ∧
           t1.characters = cs.foldl addChar []) ∨
        (∃ (ev : List Event) (e : PyErr),
           resolveActors env0 (some { world_id := start_world_id (some "New") })
             ([] : List ActorJson) = (ev, .error e) ∧
           t1.characters = [])))) :=
  ⟨rfl, start_ends_prior_session env0 stA { world_id := "w" } (some "New") {} rfl⟩

/-- Appending or replacing with addChar makes the record's reference id
present in the mapping. -/
theorem contains_addChar_self (cs : List Character) (c : Character) :
    (addChar cs c).any (fun x => x.ref_id == c.ref_id) = true := by
  unfold addChar
  by_cases hany : cs.any (fun x => x.ref_id == c.ref_id) = true
  · simp only [hany, if_true]
    induction cs with
    | nil => simp at hany
    | cons x xs ih =>
      simp only [List.map_cons, List.any_cons]
      by_cases hx : (x.ref_id == c.ref_id) = true
      · rw [if_pos hx]
        simp
      · rw [if_neg hx]
        have hx' : (x.ref_id == c.ref_id) = false := by
          simpa using hx
        simp only [List.any_cons, hx', Bool.false_or] at hany
        rw [hx', Bool.false_or]
        exact ih hany
  · simp [hany]

/-- Claim C5: in one context update where actor A's identity parsing raises
the character-identity condition while actor B resolves to a record, the
call completes successfully, B's record is added to the session and A
contributes nothing. -/
theorem actor_failure_skipped (env : Env) (t : conversation) (A B : ActorJson)
    (cb : Character) (evB : List Event) (j : UpdateInput)
    (hA : env.hexFormat A.base_id = .error ())
    (hB : load_character env (some t) B = (evB, .ok (some cb)))
    (hact : j.actors = [A, B]) :
    ∃ t1, (update_context_on env t j).2 = .ok t1 ∧
      t1.characters = addChar t.characters cb ∧
      t1.contains_character cb.ref_id = true := by
  have hAload : load_character env (some t) A = ([], .ok none) := by
    unfold load_character
    rw [hA]
  have hres : resolveActors env (some t) j.actors = (evB ++ [], .ok [cb]) := by
    rw [hact]
    unfold resolveActors
    rw [hAload]
    unfold resolveActors
    rw [hB]
    rfl
  unfold update_context_on
  rw [hres]
  refine ⟨_, rfl, ?_, ?_⟩
  · simp [conversation.update_context_fields, conversation.add_or_update_character]
  · simp only [conversation.contains_character, conversation.update_context_fields,
      conversation.add_or_update_character, List.foldl_cons, List.foldl_nil]
    exact contains_addChar_self t.characters cb

/-- Witness for C5 at a concrete failing and succeeding actor pair. -/
theorem actor_failure_skipped_witness :
    (env0.hexFormat actorAnnBad.base_id = .error () ∧
     load_character env0 (some tW) actorBobRaw =
       ([Event.lookup "r1"], .ok (some guardRecord))) ∧
    (∃ t1, (update_context_on env0 tW { actors := [actorAnnBad, actorBobRaw] }).2 =
        .ok t1 ∧
      t1.characters = addChar tW.characters guardRecord ∧
      t1.contains_character guardRecord.ref_id = true) :=
  ⟨⟨by decide, by decide⟩,
   actor_failure_skipped env0 tW actorAnnBad actorBobRaw guardRecord
     [Event.lookup "r1"] { actors := [actorAnnBad, actorBobRaw] } (by decide) (by decide) rfl⟩

/-- Claim C7: when load_character resolves a non-player actor unknown to the
session and the lookup succeeds, a generic lookup result overrides the name
and the in-game voice model parsed from the raw request, and a non-generic
result keeps the raw name and the parsed voice model token. -/
theorem load_character_generic_override (env : Env) (t : conversation) (j : ActorJson)
    (b r ivm : String) (ext : external_character_info)
    (hb : env.hexFormat j.base_id = .ok b)
    (hr : env.hexFormat j.ref_id = .ok r)
    (hv : extract_ingame_voice_model j.voice_model = .ok ivm)
    (hc : t.contains_character r = false)
    (hp : j.is_player = false)
    (hl : env.lookup b j.name j.race j.gender j.voice_model = .ok ext) :
    ∃ c, (load_character env (some t) j).2 = .ok (some c) ∧
      c.name = (if ext.is_generic_npc then ext.name else j.name) ∧
      c.ingame_voice_model = (if ext.is_generic_npc then ext.ingame_voice_model else ivm) := by
  unfold load_character
  rw [hb, hr, hv]
  simp only [hp, hc, Bool.not_false]
  simp only [Bool.false_eq_true, if_false, if_true, hl]
  exact ⟨_, rfl, rfl, rfl⟩

/-- Witness for C7 at a concrete generic actor. -/
theorem load_character_generic_override_witness :
    (env0.hexFormat actorBobRaw.base_id = .ok "b1" ∧
     env0.hexFormat actorBobRaw.ref_id = .ok "r1" ∧
     extract_ingame_voice_model actorBobRaw.voice_model = .ok "MaleNord" ∧
     tW.contains_character "r1" = false ∧
     env0.lookup "b1" actorBobRaw.name actorBobRaw.race actorBobRaw.gender
       actorBobRaw.voice_model = .ok ext0) ∧
    (∃ c, (load_character env0 (some tW) actorBobRaw).2 = .ok (some c) ∧
      c.name = (if ext0.is_generic_npc then ext0.name else actorBobRaw.name) ∧
      c.ingame_voice_model =
        (if ext0.is_generic_npc then ext0.ingame_voice_model else "MaleNord")) :=
  ⟨⟨by decide, by decide, by decide, by decide, by decide⟩,
   load_character_generic_override env0 tW actorBobRaw "b1" "r1" "MaleNord" ext0
     (by decide) (by decide) (by decide) (by decide) rfl (by decide)⟩

/-- Claim C8: when load_character resolves the player actor, unknown to the
session, with player-voice-input enabled, the synthesized-voice model is the
per-request override from the custom values when the key is present and the
configured default player voice model otherwise. -/
theorem load_character_player_voice (env : Env) (t : conversation) (j : ActorJson)
    (b r ivm : String)
    (hb : env.hexFormat j.base_id = .ok b)
    (hr : env.hexFormat j.ref_id = .ok r)
    (hv : extract_ingame_voice_model j.voice_model = .ok ivm)
    (hc : t.contains_character r = false)
    (hp : j.is_player = true)
    (hcfg : env.voice_player_input = true) :
    ∃ c, (load_character env (some t) j).2 = .ok (some c) ∧
      (∀ v, lookupKV (j.custom_values.getD []) KEY_ACTOR_PC_VOICEMODEL = some v →
        c.tts_voice_model = v) ∧
      (lookupKV (j.custom_values.getD []) KEY_ACTOR_PC_VOICEMODEL = none →
        c.tts_voice_model = env.player_voice_model) := by
  unfold load_character
  rw [hb, hr, hv]
  simp only [hp, hc, Bool.not_true, hcfg, Bool.and_self]
  simp only [Bool.false_eq_true, if_false, if_true]
  cases hkv : lookupKV (j.custom_values.getD []) KEY_ACTOR_PC_VOICEMODEL with
  | none =>
    refine ⟨_, rfl, ?_, ?_⟩
    · intro v hv2
      simp at hv2
    · intro _
      rfl
  | some v0 =>
    refine ⟨_, rfl, ?_, ?_⟩
    · intro v hv2
      cases hv2
      rfl
    · intro hnone
      simp at hnone

/-- Witness for C8: the concrete player actor with an override. -/
theorem load_character_player_voice_witness :
    (env0.hexFormat actorPlayer.base_id = .ok "pb" ∧
     env0.hexFormat actorPlayer.ref_id = .ok "pr" ∧
     extract_ingame_voice_model actorPlayer.voice_model = .ok "PlayerVoice" ∧
     tW.contains_character "pr" = false ∧
     env0.voice_player_input = true) ∧
    (∃ c, (load_character env0 (some tW) actorPlayer).2 = .ok (some c) ∧
      (∀ v, lookupKV (actorPlayer.custom_values.getD []) KEY_ACTOR_PC_VOICEMODEL =
          some v → c.tts_voice_model = v) ∧
      (lookupKV (actorPlayer.custom_values.getD []) KEY_ACTOR_PC_VOICEMODEL = none →
        c.tts_voice_model = env0.player_voice_model)) :=
  ⟨⟨by decide, by decide, by decide, by decide, rfl⟩,
   load_character_player_voice env0 tW actorPlayer "pb" "pr" "PlayerVoice"
     (by decide) (by decide) (by decide) (by decide) rfl rfl⟩

/-- A found record makes contains_character true. -/
theorem get_character_contains (t : conversation) (r : String) (c : Character)
    (h : t.get_character r = some c) : t.contains_character r = true := by
  unfold conversation.get_character at h
  unfold conversation.contains_character
  have hmem := List.mem_of_find?_eq_some h
  have hp := List.find?_some h
  exact List.any_eq_true.mpr ⟨c, hmem, hp⟩

/-- load_character emits either no event or a single lookup event for a
reference id the session does not contain. -/
theorem load_character_events (env : Env) (t : conversation) (j : ActorJson) :
    (load_character env (some t) j).1 = [] ∨
    ∃ rid, (load_character env (some t) j).1 = [Event.lookup rid] ∧
      t.contains_character rid = false := by
  unfold load_character
  cases hb : env.hexFormat j.base_id with
  | error e => simp
  | ok b =>
    cases hr : env.hexFormat j.ref_id with
    | error e => simp
    | ok rid =>
      cases hv : extract_ingame_voice_model j.voice_model with
      | error e => simp
      | ok ivm =>
        by_cases hcont : t.contains_character rid = true
        · simp only [hcont, if_true]
          cases hg : t.get_character rid <;> simp
        · have hcont' : t.contains_character rid = false := by
            simpa using hcont
          simp only [hcont', Bool.false_eq_true, if_false]
          by_cases hp : j.is_player = true
          · simp only [hp, Bool.not_true, Bool.false_eq_true, if_false]
            by_cases hcfg : env.voice_player_input = true
            · simp [hcfg]
            · have : env.voice_player_input = false := by simpa using hcfg
              simp [this]
          · have hp' : j.is_player = false := by simpa using hp
            simp only [hp', Bool.not_false, if_true]
            cases hl : env.lookup b j.name j.race j.gender j.voice_model with
            | error e => right; exact ⟨rid, rfl, hcont'⟩
            | ok ext => right; exact ⟨rid, rfl, hcont'⟩

/-- Every record load_character returns carries the normalized reference id,
and either the session did not contain that id, or the record copies the
enrichment of the stored record (or the mapping was inconsistent and
get_character found nothing). -/
theorem load_character_result (env : Env) (t : conversation) (j : ActorJson)
    (c : Character) (h : (load_character env (some t) j).2 = .ok (some c)) :
    ∃ rid, env.hexFormat j.ref_id = .ok rid ∧ c.ref_id = rid ∧
      (t.contains_character rid = false ∨
       (∃ cc, t.get_character rid = some cc ∧ enrichment c = enrichment cc) ∨
       t.get_character rid = none) := by
  unfold load_character at h
  cases hb : env.hexFormat j.base_id with
  | error e => rw [hb] at h; simp at h
  | ok b =>
    rw [hb] at h
    cases hr : env.hexFormat j.ref_id with
    | error e => rw [hr] at h; simp at h
    | ok rid =>
      rw [hr] at h
      cases hv : extract_ingame_voice_model j.voice_model with
      | error e => rw [hv] at h; simp at h
      | ok ivm =>
        rw [hv] at h
        refine ⟨rid, rfl, ?_⟩
        by_cases hcont : t.contains_character rid = true
        · simp only [hcont, if_true] at h
          cases hg : t.get_character rid with
          | some cc =>
            rw [hg] at h
            simp only [Except.ok.injEq, Option.some.injEq] at h
            subst h
            exact ⟨rfl, Or.inr (Or.inl ⟨cc, rfl, rfl⟩)⟩
          | none =>
            rw [hg] at h
            simp only [Except.ok.injEq, Option.some.injEq] at h
            subst h
            exact ⟨rfl, Or.inr (Or.inr rfl)⟩
        · have hcont' : t.contains_character rid = false := by simpa using hcont
          simp only [hcont', Bool.false_eq_true, if_false] at h
          by_cases hp : j.is_player = true
          · simp only [hp, Bool.not_true, Bool.false_eq_true, if_false] at h
            by_cases hcfg : env.voice_player_input = true
            · simp only [hcfg, Bool.and_self, if_true] at h
              simp only [Except.ok.injEq, Option.some.injEq] at h
              subst h
              exact ⟨rfl, Or.inl hcont'⟩
            · have hcfg' : env.voice_player_input = false := by simpa using hcfg
              simp only [hcfg', Bool.and_false, Bool.false_eq_true, if_false] at h
              simp only [Except.ok.injEq, Option.some.injEq] at h
              subst h
              exact ⟨rfl, Or.inl hcont'⟩
          · have hp' : j.is_player = false := by simpa using hp
            simp only [hp', Bool.not_false, if_true] at h
            cases hl : env.lookup b j.name j.race j.gender j.voice_model with
            | error e => rw [hl] at h; simp at h
            | ok ext =>
              rw [hl] at h
              simp only [Except.ok.injEq, Option.some.injEq] at h
              subst h
              exact ⟨rfl, Or.inl hcont'⟩

/-- When the session holds a record for reference id r, load_character never
emits a lookup event for r, and any record it returns for r copies the
stored enrichment fields. -/
theorem load_character_preserves (env : Env) (t : conversation) (r : String)
    (c0 : Character) (h0 : t.get_character r = some c0) (j : ActorJson) :
    Event.lookup r ∉ (load_character env (some t) j).1 ∧
    (∀ c, (load_character env (some t) j).2 = .ok (some c) → c.ref_id = r →
      enrichment c = enrichment c0) := by
  have hcont : t.contains_character r = true := get_character_contains t r c0 h0
  constructor
  · rcases load_character_events env t j with h | ⟨rid, hev, hc⟩
    · rw [h]; simp
    · rw [hev]
      simp only [List.mem_singleton]
      intro heq
      injection heq with h'
      subst h'
      rw [hcont] at hc
      exact Bool.noConfusion hc
  · intro c hres hcr
    obtain ⟨rid, -, hrid, hdisj⟩ := load_character_result env t j c hres
    have hrr : rid = r := by rw [← hrid, hcr]
    subst hrr
    rcases hdisj with hfalse | ⟨cc, hg, he⟩ | hnone
    · rw [hcont] at hfalse
      exact Bool.noConfusion hfalse
    · rw [h0] at hg
      injection hg with hg
      subst hg
      exact he
    · rw [h0] at hnone
      cases hnone

/-- The actor-resolution loop never looks up a reference id the session
holds, and every resolved record for that id copies the stored enrichment. -/
theorem resolveActors_preserves (env : Env) (t : conversation) (r : String)
    (c0 : Character) (h0 : t.get_character r = some c0) :
    ∀ js : List ActorJson,
      Event.lookup r ∉ (resolveActors env (some t) js).1 ∧
      (∀ cs, (resolveActors env (some t) js).2 = .ok cs →
        ∀ c ∈ cs, c.ref_id = r → enrichment c = enrichment c0)
  | [] => by
    constructor
    · simp [resolveActors]
    · intro cs hcs c hmem
      simp only [resolveActors, Except.ok.injEq] at hcs
      subst hcs
      cases hmem
  | j :: rest => by
    obtain ⟨h1, h2⟩ := load_character_preserves env t r c0 h0 j
    obtain ⟨ih1, ih2⟩ := resolveActors_preserves env t r c0 h0 rest
    unfold resolveActors
    cases hl : load_character env (some t) j with
    | mk ev res =>
      rw [hl] at h1 h2
      cases res with
      | error e =>
        constructor
        · simpa using h1
        · intro cs hcs
          simp at hcs
      | ok oc =>
        cases hrec : resolveActors env (some t) rest with
        | mk ev2 res2 =>
          rw [hrec] at ih1 ih2
          cases oc with
          | none =>
            constructor
            · simp only [List.mem_append]
              rintro (h | h)
              · exact h1 h
              · exact ih1 h
            · intro cs hcs c hmem hcr
              exact ih2 cs hcs c hmem hcr
          | some cnew =>
            cases res2 with
            | error e =>
              constructor
              · simp only [List.mem_append]
                rintro (h | h)
                · exact h1 h
                · exact ih1 h
              · intro cs hcs
                simp at hcs
            | ok cs2 =>
              constructor
              · simp only [List.mem_append]
                rintro (h | h)
                · exact h1 h
                · exact ih1 h
              · intro cs hcs c hmem hcr
                simp only [Except.ok.injEq] at hcs
                subst hcs
                rcases List.mem_cons.mp hmem with hcc | hcc
                · subst hcc
                  exact h2 c rfl hcr
                · exact ih2 cs2 rfl c hcc hcr

/-- Replacing the records of another reference id leaves the lookup of r
unchanged. -/
theorem find?_map_replace (cs : List Character) (c : Character) (r : String)
    (hne : (c.ref_id == r) = false) :
    (cs.map fun x => if x.ref_id == c.ref_id then c else x).find?
      (fun x => x.ref_id == r) = cs.find? (fun x => x.ref_id == r) := by
  induction cs with
  | nil => simp
  | cons x xs ih =>
    by_cases hx : (x.ref_id == c.ref_id) = true
    · have hxc : x.ref_id = c.ref_id := eq_of_beq hx
      have hxr : (x.ref_id == r) = false := by rw [hxc]; exact hne
      simp only [List.map_cons, if_pos hx, List.find?_cons, hne, hxr]
      exact ih
    · simp only [List.map_cons, if_neg hx, List.find?_cons]
      cases hxa : (x.ref_id == r) with
      | true => simp only [hxa]
      | false =>
        simp only [hxa]
        exact ih

/-- Replacing the records of the present reference id makes the lookup
return the replacement. -/
theorem find?_map_replace_self (cs : List Character) (c : Character)
    (h : cs.any (fun x => x.ref_id == c.ref_id) = true) :
    (cs.map fun x => if x.ref_id == c.ref_id then c else x).find?
      (fun x => x.ref_id == c.ref_id) = some c := by
  induction cs with
  | nil => simp at h
  | cons x xs ih =>
    by_cases hx : (x.ref_id == c.ref_id) = true
    · simp only [List.map_cons, if_pos hx, List.find?_cons, beq_self_eq_true]
    · have hx' : (x.ref_id == c.ref_id) = false := by simpa using hx
      simp only [List.any_cons, hx', Bool.false_or] at h
      simp only [List.map_cons, hx', Bool.false_eq_true, if_false, List.find?_cons]
      exact ih h

/-- A successful lookup is stable under appending. -/
theorem find?_append_of_some (l1 l2 : List Character) (p : Character → Bool)
    (a : Character) (h : l1.find? p = some a) : (l1 ++ l2).find? p = some a := by
  rw [List.find?_append, h]
  rfl

/-- addChar preserves the stored enrichment at r provided the inserted
record carries it whenever it is keyed by r. -/
theorem addChar_find?_pres (cs : List Character) (c : Character) (r : String)
    (e0 : String × String × String × String × String × Bool)
    (h : ∃ c1, cs.find? (fun x => x.ref_id == r) = some c1 ∧ enrichment c1 = e0)
    (hc : c.ref_id = r → enrichment c = e0) :
    ∃ c2, (addChar cs c).find? (fun x => x.ref_id == r) = some c2 ∧
      enrichment c2 = e0 := by
  obtain ⟨c1, hfind, he⟩ := h
  by_cases hb : (c.ref_id == r) = true
  · have hcr : c.ref_id = r := eq_of_beq hb
    subst hcr
    have hmem := List.mem_of_find?_eq_some hfind
    have hp := List.find?_some hfind
    have hany : cs.any (fun x => x.ref_id == c.ref_id) = true :=
      List.any_eq_true.mpr ⟨c1, hmem, hp⟩
    unfold addChar
    rw [if_pos hany]
    exact ⟨c, find?_map_replace_self cs c hany, hc rfl⟩
  · have hb' : (c.ref_id == r) = false := by simpa using hb
    unfold addChar
    by_cases hany : cs.any (fun x => x.ref_id == c.ref_id) = true
    · rw [if_pos hany]
      exact ⟨c1, by rw [find?_map_replace cs c r hb']; exact hfind, he⟩
    · rw [if_neg hany]
      exact ⟨c1, find?_append_of_some cs [c] _ c1 hfind, he⟩

/-- Folding addChar over a batch of records that all carry the enrichment
at r preserves the stored enrichment at r. -/
theorem foldl_addChar_pres (r : String)
    (e0 : String × String × String × String × String × Bool) :
    ∀ (new_chars : List Character) (cs : List Character),
      (∃ c1, cs.find? (fun x => x.ref_id == r) = some c1 ∧ enrichment c1 = e0) →
      (∀ c ∈ new_chars, c.ref_id = r → enrichment c = e0) →
      ∃ c2, (new_chars.foldl addChar cs).find? (fun x => x.ref_id == r) = some c2 ∧
        enrichment c2 = e0
  | [], cs, h, _ => by simpa using h
  | c :: rest, cs, h, hnew => by
    rw [List.foldl_cons]
    exact foldl_addChar_pres r e0 rest (addChar cs c)
      (addChar_find?_pres cs c r e0 h (hnew c (List.mem_cons_self c rest)))
      (fun c1 hm hcr => hnew c1 (List.mem_cons_of_mem c hm) hcr)

/-- One context update on a session holding reference id r emits no lookup
event for r and keeps a record for r with the same enrichment fields. -/
theorem update_context_on_preserves (env : Env) (t : conversation) (r : String)
    (c0 : Character) (h0 : t.get_character r = some c0) (j : UpdateInput) :
    Event.lookup r ∉ (update_context_on env t j).1 ∧
    ∀ t1, (update_context_on env t j).2 = .ok t1 →
      ∃ c2, t1.get_character r = some c2 ∧ enrichment c2 = enrichment c0 := by
  obtain ⟨hev, hres⟩ := resolveActors_preserves env t r c0 h0 j.actors
  unfold update_context_on
  cases hra : resolveActors env (some t) j.actors with
  | mk ev res =>
    rw [hra] at hev hres
    cases res with
    | error e =>
      refine ⟨hev, ?_⟩
      intro t1 ht
      simp at ht
    | ok cs =>
      refine ⟨hev, ?_⟩
      intro t1 ht
      simp only [Except.ok.injEq] at ht
      subst ht
      unfold conversation.get_character at h0
      obtain ⟨c2, hf, he⟩ := foldl_addChar_pres r (enrichment c0) cs t.characters
        ⟨c0, h0, rfl⟩ (fun c hm hcr => hres cs rfl c hm hcr)
      refine ⟨c2, ?_, he⟩
      simpa [conversation.get_character, conversation.update_context_fields,
        conversation.add_or_update_character] using hf

/-- Any sequence of context updates preserves the stored enrichment fields
of a held reference id and never emits a lookup event for it. -/
theorem run_updates_preserves (env : Env) (r : String)
    (e0 : String × String × String × String × String × Bool) :
    ∀ (js : List UpdateInput) (t : conversation),
      (∃ c0, t.get_character r = some c0 ∧ enrichment c0 = e0) →
      Event.lookup r ∉ (run_updates env t js).1 ∧
      ∃ c2, (run_updates env t js).2.get_character r = some c2 ∧ enrichment c2 = e0
  | [], t, h => by
    refine ⟨by simp [run_updates], ?_⟩
    simpa [run_updates] using h
  | j :: rest, t, h => by
    obtain ⟨c0, h0, he0⟩ := h
    obtain ⟨hev, hok⟩ := update_context_on_preserves env t r c0 h0 j
    unfold run_updates
    cases hu : update_context_on env t j with
    | mk ev res =>
      rw [hu] at hev hok
      cases res with
      | ok t1 =>
        obtain ⟨c2, hf, he⟩ := hok t1 rfl
        obtain ⟨ih1, ih2⟩ := run_updates_preserves env r e0 rest t1
          ⟨c2, hf, he.trans he0⟩
        cases hrec : run_updates env t1 rest with
        | mk ev2 t2 =>
          rw [hrec] at ih1 ih2
          simp only [hrec]
          refine ⟨?_, ih2⟩
          simp only [List.mem_append]
          rintro (hx | hx)
          · exact hev hx
          · exact ih1 hx
      | error e =>
        obtain ⟨ih1, ih2⟩ := run_updates_preserves env r e0 rest t ⟨c0, h0, he0⟩
        cases hrec : run_updates env t rest with
        | mk ev2 t2 =>
          rw [hrec] at ih1 ih2
          simp only [hrec]
          refine ⟨?_, ih2⟩
          simp only [List.mem_append]
          rintro (hx | hx)
          · exact hev hx
          · exact ih1 hx

/-- Claim C1: once the session holds a record for a reference id (the state
after the first successful resolution), every further sequence of
context-update calls keeps that record's enrichment fields (biography,
tts/csv/advanced voice models, accent, generic-NPC flag) equal to the
stored values, the external enrichment lookup is never invoked again for
that reference id, and load_character copies the stored fields forward into
any record it returns for that id, regardless of the raw actor payload. -/
theorem enrichment_first_resolution_stable (env : Env) (t : conversation)
    (r : String) (c0 : Character) (h0 : t.get_character r = some c0)
    (js : List UpdateInput) (j : ActorJson) :
    (∃ c2, ((run_updates env t js).2).get_character r = some c2 ∧
      enrichment c2 = enrichment c0) ∧
    Event.lookup r ∉ (run_updates env t js).1 ∧
    Event.lookup r ∉ (load_character env (some t) j).1 ∧
    (∀ c, (load_character env (some t) j).2 = .ok (some c) → c.ref_id = r →
      enrichment c = enrichment c0) := by
  obtain ⟨h1, h2⟩ := run_updates_preserves env r (enrichment c0) js t ⟨c0, h0, rfl⟩
  obtain ⟨h3, h4⟩ := load_character_preserves env t r c0 h0 j
  exact ⟨h2, h1, h3, h4⟩
/-- Witness for C1: the cached session, one further update with different
raw fields, exercised through the theorem. -/
theorem enrichment_first_resolution_stable_witness :
    tCached.get_character "r1" = some guardRecord ∧
    ((∃ c2, ((run_updates env0 tCached jsW).2).get_character "r1" = some c2 ∧
        enrichment c2 = enrichment guardRecord) ∧
     Event.lookup "r1" ∉ (run_updates env0 tCached jsW).1 ∧
     Event.lookup "r1" ∉ (load_character env0 (some tCached) actorBobAgain).1 ∧
     (∀ c, (load_character env0 (some tCached) actorBobAgain).2 = .ok (some c) →
        c.ref_id = "r1" → enrichment c = enrichment guardRecord)) :=
  ⟨by decide,
   enrichment_first_resolution_stable env0 tCached "r1" guardRecord (by decide)
     jsW actorBobAgain⟩

end Mantella
